import Mathlib

/-!
A shallow embedding of `sbclassifier/classifiers/slurping.py`.

Python strings are modelled as Lean `String` (character-level operations
go through `String.data`), Python lists and tuples as Lean lists, and
Python `float` scores as `Rat` (only order comparisons against the
cutoffs matter).  The module-level constants `X_ONLY_SLURP_BASE`,
`X_WEB_PREFIX` and the imported constants `HAM_CUTOFF`, `SPAM_CUTOFF`,
`MAX_DISCRIMINATORS` (from `sbclassifier.classifiers.constants`, outside
this file) are fields of a `Config` record.  External collaborators are
oracle parameters: the base classifier's chi-squared `spamprob` is a
`score` function, the `Tokenizer` (together with the temporary
`BASIC_HEADER_TOKENIZE` policy toggles around the single call) is a
`tokFn` function, and the network (DNS resolution via
`socket.getaddrinfo` plus the single `urlopen` request) is a
`NetBehavior` value describing what the network does for the one URL a
call works on.  The durable caches (`bad_urls`, `http_error_urls`, the
`urlCorpus` content cache) and the process-global socket default timeout
are explicit state in `SlurpState`.  An uncaught Python exception is
modelled as `none`.  The events performed against the network are
reported so that theorems can state that no DNS lookup or fetch happens.
-/

/-- A token produced by the tokenizer or by `slurp`. -/
abbrev Token := String

/-- The `(proto, guts)` pair held by the module-level `slurp_wordstream`. -/
abbrev URLRef := String × String

/-- Python `str.split(sep)` on a list of characters: splitting `"a..b"`
at `'.'` gives `["a", "", "b"]`, and splitting `""` gives `[""]`.  The
result is never empty. -/
def pySplit (sep : Char) : List Char → List (List Char)
  | [] => [[]]
  | c :: cs =>
    let r := pySplit sep cs
    if c = sep then [] :: r else (c :: r.headD []) :: r.tail

/-- Python `str.split(sep)` on `String`. -/
def pySplitStr (sep : Char) (s : String) : List String :=
  (pySplit sep s.data).map (fun l => ⟨l⟩)

/-- Python `str.startswith(pre)`. -/
def pyStartswith (s pre : String) : Bool :=
  pre.data.isPrefixOf s.data

/-- Python `str.lower()`, character by character. -/
def pyLowerStr (s : String) : String :=
  ⟨s.data.map Char.toLower⟩

/-- The label-selection half of `SlurpingClassifier._base_url`: split
the domain at `'.'`; with more than two labels keep the last two
(`parts[-2] + '.' + parts[-1]`), or additionally prepend `parts[-3]`
when the final label is shorter than three characters; with at most two
labels keep the domain as is. -/
def buildBase (domain : List Char) : List Char :=
  let parts := pySplit '.' domain
  if parts.length > 2 then
    let lastPart := parts.getD (parts.length - 1) []
    let bd := parts.getD (parts.length - 2) [] ++ '.' :: lastPart
    if lastPart.length < 3 then parts.getD (parts.length - 3) [] ++ '.' :: bd
    else bd
  else domain

/-- The character-level body of `SlurpingClassifier._base_url`: append
`'/'`, keep the part before the first `'/'` (the Python code is
`url.split('/', 1)[0]`), then select the base labels of that domain. -/
def base_url_chars (url : List Char) : List Char :=
  buildBase ((pySplit '/' (url ++ ['/'])).headD [])

namespace SlurpingURLStripper

/-- The effect of `SlurpingURLStripper.analyze` on the module-level
`slurp_wordstream`.  The Python body executes `slurp_wordstream = None`
WITHOUT a `global slurp_wordstream` declaration, so the statement binds
a function-local name and the module-level variable (the one read by
`SlurpingClassifier.spamprob`) is left untouched; the local binding is
modelled by the dead `let` below. -/
def analyze (slurp_wordstream : Option URLRef) (_text : String) : Option URLRef :=
  let _slurp_wordstream : Option URLRef := none
  slurp_wordstream

/-- The effect of one `SlurpingURLStripper.tokenize` call (the base
`URLStripper` invokes it once per matched link, with the match's
`(proto, guts)` groups) on the module-level `slurp_wordstream`.  Non-http
protocols return early; otherwise trailing characters in `'.:;?!/)'` are
trimmed from `guts`.  As in `analyze`, the Python assignment
`slurp_wordstream = (proto, guts)` lacks a `global` declaration: it
creates a function-local binding (the dead `let`) and the module-level
variable is not written. -/
def tokenize (slurp_wordstream : Option URLRef) (proto guts : String) : Option URLRef :=
  if proto ≠ "http" then slurp_wordstream
  else
    let guts : String :=
      ⟨(guts.data.reverse.dropWhile
          (fun c => (['.', ':', ';', '?', '!', '/', ')'] : List Char).contains c)).reverse⟩
    let _slurp_wordstream : Option URLRef := some (proto, guts)
    slurp_wordstream

/-- One whole scan of a message by the stripper: the base class calls
`analyze` on the text and then `tokenize` once for each link match found
in it (`found` lists the `(proto, guts)` pairs in order of occurrence).
The module-level `slurp_wordstream` is threaded through. -/
def scanMessage (slurp_wordstream : Option URLRef) (text : String)
    (found : List URLRef) : Option URLRef :=
  found.foldl (fun g pg => tokenize g pg.1 pg.2) (analyze slurp_wordstream text)

end SlurpingURLStripper

/-- The mutable state a `SlurpingClassifier` instance works on: the
three `bad_urls` buckets (tuples, in the dictionary's fixed insertion
order `url:non_resolving`, `url:non_html`, `url:unknown_error`), the
per-URL `http_error_urls` map, the positive `urlCorpus` content cache
(keyed by the substituted URL key), and the process-global socket
default timeout (`none` models Python's `None`, i.e. no default). -/
structure SlurpState where
  non_resolving : List String
  non_html : List String
  unknown_error : List String
  http_error_urls : List (String × String)
  corpus : List (String × String)
  timeout : Option Nat
  deriving DecidableEq

/-- What the single `urlopen` request does: raise a `URLError` whose
string matches `HTTP Error ([\d]+)` (carrying the digits), raise some
other `URLError`/`socket.error`, or connect successfully with the given
declared content type, where `readResult = some (page, headers)` is a
successful body read and `readResult = none` is a `socket.error` raised
while reading after the successful connect. -/
inductive FetchOutcome where
  | httpError (code : String)
  | otherError
  | success (contentType : Option String) (readResult : Option (String × String))
  deriving DecidableEq

/-- The network oracle for one `slurp` call: whether
`socket.getaddrinfo` succeeds for the URL's domain, and what the fetch
does if one is performed. -/
structure NetBehavior where
  resolves : Bool
  fetch : FetchOutcome
  deriving DecidableEq

/-- External interactions performed during a `slurp` call. -/
inductive NetEvent where
  | dns
  | fetch
  deriving DecidableEq

/-- A Python value returned by `slurp`: either a bare `str` (what the
`http_error_urls` cache hit at line 290 returns) or a list of token
strings (every other return).  Iterating a bare `str` as a token
sequence yields its one-character substrings. -/
inductive PyTokens where
  | pyStr (s : String)
  | pyList (l : List Token)
  deriving DecidableEq

/-- The token sequence obtained by iterating the returned value, as
`list(self._generate_slurp())` does in `spamprob`: a Python list gives
its elements, a bare Python string gives its characters. -/
def PyTokens.asSeq : PyTokens → List Token
  | .pyStr s => s.data.map (fun c => (⟨[c]⟩ : String))
  | .pyList l => l

/-- The configuration constants read by the slurping classifier. -/
structure Config where
  onlyBase : Bool
  webNamespace : String
  hamCutoff : Rat
  spamCutoff : Rat
  maxDiscriminators : Nat
  deriving DecidableEq

/-- The claim's notion of a case-insensitive `text/html` prefix match of
a declared content type (the pattern is already lowercase). -/
def ciHtml : Option String → Bool
  | none => false
  | some ct => pyStartswith (pyLowerStr ct) "text/html"

namespace SlurpingClassifier

/-- `SlurpingClassifier._base_url` on `String`. -/
def _base_url (url : String) : String :=
  ⟨base_url_chars url.data⟩

/-- The cache key `url_key = URL_KEY_RE.sub('_', url)`: every character
that is not a word character (`[\W]`) is replaced by `'_'`. -/
def url_key (url : String) : String :=
  ⟨url.data.map (fun c => if c.isAlphanum || c = '_' then c else '_')⟩

/-- `SlurpingClassifier.slurp`, following the Python source line by
line.  `none` models an uncaught exception: when `DOMAIN_AND_PORT_RE`
fails to match (the URL is empty or starts with `':'`, `'/'` or `'\'`
after canonicalization) the Python code crashes on `mo.group(1)`; and
every path that reaches the tokenization section (a positive-cache hit,
or a successful `text/html` fetch whose body read succeeds) crashes
with `UnboundLocalError` at line 376, because the assignments
`BASIC_HEADER_TOKENIZE = True` at lines 379 and 387 make that name
function-local throughout `slurp` and line 376 reads it before any
binding.  (On the fetch path the document has already been stored via
`addMessage` at line 367 when that crash occurs; as for the other
crash, `none` does not carry the state at the crash point.)  The
third component records the network interactions performed.  Note that
on the two except-branch returns (`httpError`, `otherError`) the global
default timeout is left at `5`, and that the `http_error_urls` cache hit
returns the stored bare string. -/
def slurp (cfg : Config) (net : NetBehavior) (tokFn : String → List Token)
    (st : SlurpState) (proto url : String) :
    Option (PyTokens × SlurpState × List NetEvent) :=
  if url = "" then
    some (.pyList ["url:non_resolving"], st, [])
  else
    let url := if cfg.onlyBase then _base_url url else url
    if url ∈ st.non_resolving then
      some (.pyList ["url:non_resolving"], st, [])
    else if url ∈ st.non_html then
      some (.pyList ["url:non_html"], st, [])
    else if url ∈ st.unknown_error then
      some (.pyList ["url:unknown_error"], st, [])
    else
      match st.http_error_urls.lookup url with
      | some cached => some (.pyStr cached, st, [])
      | none =>
        match url.data with
        | [] => none
        | c :: _ =>
          if c = ':' ∨ c = '/' ∨ c = '\\' then none
          else if net.resolves then
            match st.corpus.lookup (url_key url) with
            | some _cachedMsg =>
              -- The cached document flows to `message_from_string` and then
              -- to line 376, where reading `BASIC_HEADER_TOKENIZE` raises
              -- `UnboundLocalError`: an uncaught exception.
              none
            | none =>
              if (pySplitStr '.' url).getLastD "" ∈
                  (["jpg", "gif", "png", "css", "js"] : List String) then
                some (.pyList ["url:non_html"],
                      { st with non_html := st.non_html ++ [url] }, [.dns])
              else
                let savedT := st.timeout
                let st1 := { st with timeout := some 5 }
                match net.fetch with
                | .httpError code =>
                  some (.pyList ["url:http_" ++ code],
                        { st1 with http_error_urls :=
                            st1.http_error_urls ++ [(url, "url:http_" ++ code)] },
                        [.dns, .fetch])
                | .otherError =>
                  some (.pyList ["url:unknown_error"],
                        { st1 with unknown_error := st1.unknown_error ++ [url] },
                        [.dns, .fetch])
                | .success contentType readResult =>
                  let st2 := { st1 with timeout := savedT }
                  match contentType with
                  | none =>
                    some (.pyList ["url:non_html"],
                          { st2 with non_html := st2.non_html ++ [url] }, [.dns, .fetch])
                  | some ct =>
                    if pyStartswith ct "text/html" then
                      match readResult with
                      | none => some (.pyList [], st2, [.dns, .fetch])
                      | some _pr =>
                        -- The page is stored in the corpus (line 367) and then
                        -- flows to line 376, where reading
                        -- `BASIC_HEADER_TOKENIZE` raises `UnboundLocalError`:
                        -- an uncaught exception.
                        none
                    else
                      some (.pyList ["url:non_html"],
                            { st2 with non_html := st2.non_html ++ [url] }, [.dns, .fetch])
          else
            some (.pyList ["url:non_resolving"],
                  { st with non_resolving := st.non_resolving ++ [url] }, [.dns])

end SlurpingClassifier

/-- Instance-level state of a `SlurpingClassifier` beyond the caches:
the lazily-probed `setup_done` attribute and the `do_slurp` re-entrancy
flag (`none` models the attribute being absent). -/
structure ClassifierState where
  slurpSt : SlurpState
  setup_done : Bool
  do_slurp : Option Bool
  deriving DecidableEq

namespace SlurpingClassifier

/-- `SlurpingClassifier.setup`: re-creates the caches from durable
storage (`loaded` is what the pickles and the corpus directory hold);
the socket default timeout is a process global and is not touched. -/
def setup (loaded : SlurpState) (st : ClassifierState) : ClassifierState :=
  { st with slurpSt := { loaded with timeout := st.slurpSt.timeout } }

/-- `SlurpingClassifier._generate_slurp`: lazily run `setup`, honour the
`do_slurp` re-entrancy guard, and when a `slurp_wordstream` is pending,
slurp it (clearing and then restoring the guard, and saving the caches,
which mutates no in-memory state).  Returns the Python value produced,
the updated instance state and the network events. -/
def _generate_slurp (cfg : Config) (net : NetBehavior) (tokFn : String → List Token)
    (slurpWS : Option URLRef) (loaded : SlurpState) (st : ClassifierState) :
    Option (PyTokens × ClassifierState × List NetEvent) :=
  let st := if st.setup_done then st else { setup loaded st with setup_done := true }
  if st.do_slurp.getD true then
    match slurpWS with
    | some pg =>
      let st := { st with do_slurp := some false }
      match slurp cfg net tokFn st.slurpSt pg.1 pg.2 with
      | none => none
      | some r =>
        some (r.1, { st with slurpSt := r.2.1, do_slurp := some true }, r.2.2)
    | none => some (.pyList [], st, [])
  else some (.pyList [], st, [])

/-- `SlurpingClassifier.spamprob` (with `evidence=True`; the probability
and the clues are always computed and both are reported).  `score` is
the base chi-squared `Classifier.spamprob` collaborator, `slurpWS` the
module-level `slurp_wordstream` read by the guard condition.  The last
component records whether the augmentation branch was entered. -/
def spamprob (cfg : Config) (net : NetBehavior) (tokFn : String → List Token)
    (score : List Token → Rat × List (Token × Rat))
    (slurpWS : Option URLRef) (loaded : SlurpState)
    (st : ClassifierState) (wordstream : List Token) :
    Option (Rat × List (Token × Rat) × ClassifierState × List NetEvent × Bool) :=
  let h_cut := cfg.hamCutoff
  let s_cut := cfg.spamCutoff
  let pc := score wordstream
  if pc.2.length < cfg.maxDiscriminators ∧ h_cut < pc.1 ∧ pc.1 < s_cut ∧
      slurpWS.isSome = true then
    match _generate_slurp cfg net tokFn slurpWS loaded st with
    | none => none
    | some r =>
      let slurp_tokens := r.1.asSeq ++ pc.2.map Prod.fst
      let spc := score slurp_tokens
      if spc.1 < h_cut ∨ spc.1 > s_cut then
        some (spc.1, spc.2, r.2.1, r.2.2, true)
      else
        some (pc.1, pc.2, r.2.1, r.2.2, true)
  else
    some (pc.1, pc.2, st, [], false)

end SlurpingClassifier

/-- A configuration with the documented default cutoffs `(0.2, 0.9)`,
base-domain mode off (the module constant `X_ONLY_SLURP_BASE = False`)
and an empty web namespace (`X_WEB_PREFIX = ''`). -/
def cfg0 : Config :=
  { onlyBase := false, webNamespace := "", hamCutoff := mkRat 1 5,
    spamCutoff := mkRat 9 10, maxDiscriminators := 150 }

/-- Empty caches, no socket default timeout. -/
def st0 : SlurpState :=
  { non_resolving := [], non_html := [], unknown_error := [], http_error_urls := [],
    corpus := [], timeout := none }

/-- A tokenizer oracle producing one fixed token. -/
def tok0 : String → List Token := fun _ => ["w1"]

/-- A network where DNS succeeds and any fetch raises a non-HTTP error. -/
def netA : NetBehavior := { resolves := true, fetch := .otherError }

/-- A base-classifier oracle: the original wordstream `["a"]` scores an
inconclusive 0.6 with one clue; any augmented stream scores a decisive
0.95. -/
def score1 : List Token → Rat × List (Token × Rat) := fun ws =>
  if ws = ["a"] then (mkRat 3 5, [("a", mkRat 1 2)])
  else (mkRat 19 20, [("b", mkRat 9 10)])

/-- Caches holding a positive cache entry for `x.com` (key `x_com`). -/
def stCache : SlurpState := { st0 with corpus := [("x_com", "pagebody")] }

/-- An instance that has completed setup, with the cache state
`stCache` and the `do_slurp` attribute not yet created. -/
def cst1 : ClassifierState := { slurpSt := stCache, setup_done := true, do_slurp := none }

/-- An instance that has completed setup, with empty caches and the
`do_slurp` attribute not yet created. -/
def cst3 : ClassifierState := { slurpSt := st0, setup_done := true, do_slurp := none }

/-- The instance state after one `_generate_slurp` run from `cst3`
against `netA`: the fetch of `x.com` raised a non-HTTP network error,
so the URL was added to the `unknown_error` bucket and the 5-second
timeout override was left in place (the except-branch return skips the
restore). -/
def cst4 : ClassifierState :=
  { slurpSt := { st0 with unknown_error := ["x.com"], timeout := some 5 },
    setup_done := true, do_slurp := some true }

/-! ## Lemmas about `pySplit` and `buildBase` -/

theorem pySplit_ne_nil (sep : Char) (l : List Char) : pySplit sep l ≠ [] := by
  cases l with
  | nil => simp [pySplit]
  | cons c cs =>
    simp only [pySplit]
    by_cases h : c = sep <;> simp [h]

theorem headD_mem {α : Type} (l : List α) (d : α) (h : l ≠ []) : l.headD d ∈ l := by
  cases l with
  | nil => exact absurd rfl h
  | cons a as => simp

theorem getD_mem {α : Type} (l : List α) (i : Nat) (d : α) (h : i < l.length) :
    l.getD i d ∈ l := by
  induction l generalizing i with
  | nil => simp at h
  | cons a as ih =>
    cases i with
    | zero => simp
    | succ n =>
      rw [List.getD_cons_succ]
      exact List.mem_cons_of_mem _ (ih n (by simpa using h))

theorem mem_pySplit_not_mem (sep : Char) (l : List Char) (p : List Char)
    (hp : p ∈ pySplit sep l) : sep ∉ p := by
  induction l generalizing p with
  | nil =>
    simp [pySplit] at hp
    subst hp; simp
  | cons c cs ih =>
    simp only [pySplit] at hp
    by_cases h : c = sep
    · rw [if_pos h] at hp
      rcases List.mem_cons.mp hp with h1 | h1
      · subst h1; simp
      · exact ih p h1
    · rw [if_neg h] at hp
      rcases List.mem_cons.mp hp with h1 | h1
      · subst h1
        intro hmem
        rcases List.mem_cons.mp hmem with h2 | h2
        · exact h h2.symm
        · exact ih _ (headD_mem _ _ (pySplit_ne_nil sep cs)) h2
      · exact ih p (List.mem_of_mem_tail h1)

theorem mem_pySplit_sub (sep : Char) (l p : List Char) (c : Char)
    (hp : p ∈ pySplit sep l) (hc : c ∈ p) : c ∈ l := by
  induction l generalizing p with
  | nil =>
    simp [pySplit] at hp
    subst hp; simp at hc
  | cons a as ih =>
    simp only [pySplit] at hp
    by_cases h : a = sep
    · rw [if_pos h] at hp
      rcases List.mem_cons.mp hp with h1 | h1
      · subst h1; simp at hc
      · exact List.mem_cons_of_mem _ (ih p h1 hc)
    · rw [if_neg h] at hp
      rcases List.mem_cons.mp hp with h1 | h1
      · subst h1
        rcases List.mem_cons.mp hc with h2 | h2
        · subst h2; exact List.mem_cons_self _ _
        · exact List.mem_cons_of_mem _
            (ih _ (headD_mem _ _ (pySplit_ne_nil sep as)) h2)
      · exact List.mem_cons_of_mem _ (ih p (List.mem_of_mem_tail h1) hc)

theorem pySplit_append_cons (sep : Char) (x rest : List Char) (hx : sep ∉ x) :
    pySplit sep (x ++ sep :: rest) = x :: pySplit sep rest := by
  induction x with
  | nil => simp [pySplit]
  | cons c cs ih =>
    have hc : ¬ c = sep := fun h => hx (by simp [h])
    have hcs : sep ∉ cs := fun h => hx (List.mem_cons_of_mem _ h)
    simp only [List.cons_append, pySplit, List.append_eq]
    rw [if_neg hc, ih hcs]
    rfl

theorem pySplit_of_not_mem (sep : Char) (l : List Char) (h : sep ∉ l) :
    pySplit sep l = [l] := by
  induction l with
  | nil => simp [pySplit]
  | cons c cs ih =>
    have hc : ¬ c = sep := fun hh => h (by simp [hh])
    have hcs : sep ∉ cs := fun hh => h (List.mem_cons_of_mem _ hh)
    simp [pySplit, ih hcs, hc]

theorem headD_pySplit_append_slash (s : List Char) (h : '/' ∉ s) :
    (pySplit '/' (s ++ ['/'])).headD [] = s := by
  have hsplit := pySplit_append_cons '/' s [] h
  rw [show s ++ ['/'] = s ++ '/' :: [] from rfl, hsplit]
  rfl

theorem buildBase_big (d : List Char) (hlen : (pySplit '.' d).length > 2) :
    buildBase d =
      (if ((pySplit '.' d).getD ((pySplit '.' d).length - 1) []).length < 3 then
        (pySplit '.' d).getD ((pySplit '.' d).length - 3) [] ++ '.' ::
          ((pySplit '.' d).getD ((pySplit '.' d).length - 2) [] ++ '.' ::
            (pySplit '.' d).getD ((pySplit '.' d).length - 1) [])
      else
        (pySplit '.' d).getD ((pySplit '.' d).length - 2) [] ++ '.' ::
          (pySplit '.' d).getD ((pySplit '.' d).length - 1) []) := by
  simp only [buildBase]
  rw [if_pos hlen]

theorem buildBase_small (d : List Char) (hlen : ¬ (pySplit '.' d).length > 2) :
    buildBase d = d := by
  simp only [buildBase]
  rw [if_neg hlen]

theorem buildBase_of_split_three (s p3 p2 p1 : List Char)
    (hsplit : pySplit '.' s = [p3, p2, p1]) :
    buildBase s =
      if p1.length < 3 then p3 ++ '.' :: (p2 ++ '.' :: p1) else p2 ++ '.' :: p1 := by
  simp only [buildBase, hsplit]
  rfl

theorem buildBase_of_split_two (s p2 p1 : List Char)
    (hsplit : pySplit '.' s = [p2, p1]) :
    buildBase s = s := by
  simp only [buildBase, hsplit]
  rfl

theorem buildBase_no_slash (d : List Char) (hd : '/' ∉ d) : '/' ∉ buildBase d := by
  by_cases hlen : (pySplit '.' d).length > 2
  · obtain ⟨p1, hp1⟩ : ∃ p, (pySplit '.' d).getD ((pySplit '.' d).length - 1) [] = p :=
      ⟨_, rfl⟩
    obtain ⟨p2, hp2⟩ : ∃ p, (pySplit '.' d).getD ((pySplit '.' d).length - 2) [] = p :=
      ⟨_, rfl⟩
    obtain ⟨p3, hp3⟩ : ∃ p, (pySplit '.' d).getD ((pySplit '.' d).length - 3) [] = p :=
      ⟨_, rfl⟩
    have h1m : p1 ∈ pySplit '.' d := hp1 ▸ getD_mem _ _ _ (by omega)
    have h2m : p2 ∈ pySplit '.' d := hp2 ▸ getD_mem _ _ _ (by omega)
    have h3m : p3 ∈ pySplit '.' d := hp3 ▸ getD_mem _ _ _ (by omega)
    have ns1 : '/' ∉ p1 := fun hc => hd (mem_pySplit_sub '.' d p1 '/' h1m hc)
    have ns2 : '/' ∉ p2 := fun hc => hd (mem_pySplit_sub '.' d p2 '/' h2m hc)
    have ns3 : '/' ∉ p3 := fun hc => hd (mem_pySplit_sub '.' d p3 '/' h3m hc)
    rw [buildBase_big d hlen, hp1, hp2, hp3]
    by_cases hshort : p1.length < 3
    · rw [if_pos hshort]
      intro hc
      rcases List.mem_append.mp hc with h | h
      · exact ns3 h
      · rcases List.mem_cons.mp h with h | h
        · exact absurd h (by decide)
        · rcases List.mem_append.mp h with h | h
          · exact ns2 h
          · rcases List.mem_cons.mp h with h | h
            · exact absurd h (by decide)
            · exact ns1 h
    · rw [if_neg hshort]
      intro hc
      rcases List.mem_append.mp hc with h | h
      · exact ns2 h
      · rcases List.mem_cons.mp h with h | h
        · exact absurd h (by decide)
        · exact ns1 h
  · rw [buildBase_small d hlen]
    exact hd

theorem buildBase_idem (d : List Char) : buildBase (buildBase d) = buildBase d := by
  by_cases hlen : (pySplit '.' d).length > 2
  · obtain ⟨p1, hp1⟩ : ∃ p, (pySplit '.' d).getD ((pySplit '.' d).length - 1) [] = p :=
      ⟨_, rfl⟩
    obtain ⟨p2, hp2⟩ : ∃ p, (pySplit '.' d).getD ((pySplit '.' d).length - 2) [] = p :=
      ⟨_, rfl⟩
    obtain ⟨p3, hp3⟩ : ∃ p, (pySplit '.' d).getD ((pySplit '.' d).length - 3) [] = p :=
      ⟨_, rfl⟩
    have h1m : p1 ∈ pySplit '.' d := hp1 ▸ getD_mem _ _ _ (by omega)
    have h2m : p2 ∈ pySplit '.' d := hp2 ▸ getD_mem _ _ _ (by omega)
    have h3m : p3 ∈ pySplit '.' d := hp3 ▸ getD_mem _ _ _ (by omega)
    have nd1 : '.' ∉ p1 := mem_pySplit_not_mem '.' d p1 h1m
    have nd2 : '.' ∉ p2 := mem_pySplit_not_mem '.' d p2 h2m
    have nd3 : '.' ∉ p3 := mem_pySplit_not_mem '.' d p3 h3m
    rw [buildBase_big d hlen, hp1, hp2, hp3]
    by_cases hshort : p1.length < 3
    · rw [if_pos hshort]
      have hsplit : pySplit '.' (p3 ++ '.' :: (p2 ++ '.' :: p1)) = [p3, p2, p1] := by
        rw [pySplit_append_cons '.' p3 _ nd3, pySplit_append_cons '.' p2 _ nd2,
          pySplit_of_not_mem '.' p1 nd1]
      rw [buildBase_of_split_three _ p3 p2 p1 hsplit, if_pos hshort]
    · rw [if_neg hshort]
      have hsplit : pySplit '.' (p2 ++ '.' :: p1) = [p2, p1] := by
        rw [pySplit_append_cons '.' p2 _ nd2, pySplit_of_not_mem '.' p1 nd1]
      rw [buildBase_of_split_two _ p2 p1 hsplit]
  · rw [buildBase_small d hlen, buildBase_small d hlen]

theorem base_url_chars_idem (url : List Char) :
    base_url_chars (base_url_chars url) = base_url_chars url := by
  have hdmem : (pySplit '/' (url ++ ['/'])).headD [] ∈ pySplit '/' (url ++ ['/']) :=
    headD_mem _ _ (pySplit_ne_nil _ _)
  have hdslash : '/' ∉ (pySplit '/' (url ++ ['/'])).headD [] :=
    mem_pySplit_not_mem _ _ _ hdmem
  unfold base_url_chars
  rw [headD_pySplit_append_slash _ (buildBase_no_slash _ hdslash)]
  exact buildBase_idem _

/-- C10: domain canonicalization is idempotent: for every URL string
`u`, `_base_url (_base_url u) = _base_url u`. -/
theorem base_url_idempotent (u : String) :
    SlurpingClassifier._base_url (SlurpingClassifier._base_url u) =
      SlurpingClassifier._base_url u := by
  unfold SlurpingClassifier._base_url
  exact congrArg String.mk (base_url_chars_idem u.data)

/-! ## Claim theorems -/

/-- C1: whenever augmentation is triggered (the guard condition holds
and `_generate_slurp` returns), `spamprob` adopts the re-scored
probability and its evidence exactly when the second score is decisive
(strictly below the ham cutoff or strictly above the spam cutoff), and
otherwise returns the original base probability and the original
evidence unchanged. -/
theorem spamprob_adopts_only_decisive
    (cfg : Config) (net : NetBehavior) (tokFn : String → List Token)
    (score : List Token → Rat × List (Token × Rat))
    (slurpWS : Option URLRef) (loaded : SlurpState) (st : ClassifierState)
    (ws : List Token) (ptoks : PyTokens) (st2 : ClassifierState) (ev : List NetEvent)
    (hlen : (score ws).2.length < cfg.maxDiscriminators)
    (hlo : cfg.hamCutoff < (score ws).1)
    (hhi : (score ws).1 < cfg.spamCutoff)
    (hws : slurpWS.isSome = true)
    (hgen : SlurpingClassifier._generate_slurp cfg net tokFn slurpWS loaded st
              = some (ptoks, st2, ev)) :
    SlurpingClassifier.spamprob cfg net tokFn score slurpWS loaded st ws =
      (if (score (ptoks.asSeq ++ (score ws).2.map Prod.fst)).1 < cfg.hamCutoff ∨
          (score (ptoks.asSeq ++ (score ws).2.map Prod.fst)).1 > cfg.spamCutoff then
        some ((score (ptoks.asSeq ++ (score ws).2.map Prod.fst)).1,
              (score (ptoks.asSeq ++ (score ws).2.map Prod.fst)).2, st2, ev, true)
      else
        some ((score ws).1, (score ws).2, st2, ev, true)) := by
  simp only [SlurpingClassifier.spamprob, hgen]
  rw [if_pos ⟨hlen, hlo, hhi, hws⟩]

theorem spamprob_adopts_only_decisive_witness :
    ((score1 ["a"]).2.length < cfg0.maxDiscriminators ∧
     cfg0.hamCutoff < (score1 ["a"]).1 ∧ (score1 ["a"]).1 < cfg0.spamCutoff ∧
     (some ("http", "x.com") : Option URLRef).isSome = true ∧
     SlurpingClassifier._generate_slurp cfg0 netA tok0 (some ("http", "x.com")) st0 cst3
       = some (.pyList ["url:unknown_error"], cst4, [.dns, .fetch])) ∧
    SlurpingClassifier.spamprob cfg0 netA tok0 score1 (some ("http", "x.com")) st0 cst3 ["a"]
      = (if (score1 ((PyTokens.pyList ["url:unknown_error"]).asSeq ++
               (score1 ["a"]).2.map Prod.fst)).1 < cfg0.hamCutoff ∨
            (score1 ((PyTokens.pyList ["url:unknown_error"]).asSeq ++
               (score1 ["a"]).2.map Prod.fst)).1 > cfg0.spamCutoff then
          some ((score1 ((PyTokens.pyList ["url:unknown_error"]).asSeq ++
                   (score1 ["a"]).2.map Prod.fst)).1,
                (score1 ((PyTokens.pyList ["url:unknown_error"]).asSeq ++
                   (score1 ["a"]).2.map Prod.fst)).2,
                cst4, [.dns, .fetch], true)
        else
          some ((score1 ["a"]).1, (score1 ["a"]).2, cst4, [.dns, .fetch], true)) :=
  ⟨⟨by decide, by decide, by decide, by decide, by decide⟩,
    spamprob_adopts_only_decisive cfg0 netA tok0 score1 (some ("http", "x.com")) st0 cst3
      ["a"] (.pyList ["url:unknown_error"]) cst4 [.dns, .fetch]
      (by decide) (by decide) (by decide) (by decide) (by decide)⟩

/-- C2: `spamprob` enters augmentation only when the evidence count is
strictly below `MAX_DISCRIMINATORS`, the base probability lies strictly
between the cutoffs, and a pending `slurp_wordstream` exists; under any
other condition it returns the base score and evidence with the state
untouched and with no network event, i.e. no resolution of a URL is
triggered. -/
theorem spamprob_skips_augmentation_outside_window
    (cfg : Config) (net : NetBehavior) (tokFn : String → List Token)
    (score : List Token → Rat × List (Token × Rat))
    (slurpWS : Option URLRef) (loaded : SlurpState) (st : ClassifierState)
    (ws : List Token)
    (hcond : ¬ ((score ws).2.length < cfg.maxDiscriminators ∧
                cfg.hamCutoff < (score ws).1 ∧ (score ws).1 < cfg.spamCutoff ∧
                slurpWS.isSome = true)) :
    SlurpingClassifier.spamprob cfg net tokFn score slurpWS loaded st ws
      = some ((score ws).1, (score ws).2, st, [], false) := by
  simp only [SlurpingClassifier.spamprob]
  rw [if_neg hcond]

theorem spamprob_skips_augmentation_outside_window_witness :
    (¬ ((score1 ["z"]).2.length < cfg0.maxDiscriminators ∧
        cfg0.hamCutoff < (score1 ["z"]).1 ∧ (score1 ["z"]).1 < cfg0.spamCutoff ∧
        (some ("http", "x.com") : Option URLRef).isSome = true)) ∧
    SlurpingClassifier.spamprob cfg0 netA tok0 score1 (some ("http", "x.com")) st0 cst1 ["z"]
      = some ((score1 ["z"]).1, (score1 ["z"]).2, cst1, [], false) :=
  ⟨by decide,
    spamprob_skips_augmentation_outside_window cfg0 netA tok0 score1
      (some ("http", "x.com")) st0 cst1 ["z"] (by decide)⟩

/-- C3: contrary to the claim, the extractor's scan neither clears the
previously pending `slurp_wordstream` nor records the most recent http
link: both assignments in `SlurpingURLStripper` lack a `global`
declaration, so a scan of a text with no link keeps the stale pending
reference (the claim says it becomes absent), and a scan that finds
`http://new.example.com/` leaves the pending reference absent (the claim
says it becomes the trimmed pair `("http", "new.example.com")`). -/
theorem stripper_leaves_global_stale :
    (SlurpingURLStripper.scanMessage (some ("http", "old.example.com")) "no links here" []
       = some ("http", "old.example.com"))
    ∧ (SlurpingURLStripper.scanMessage none "see http://new.example.com/"
         [("http", "new.example.com/")] = none) := by
  exact ⟨rfl, rfl⟩

/-- C4: contrary to the claim, the 5-second override of the global
socket default timeout is not restored on the HTTP-status-error and
unknown-network-error return paths: from a state with no default
timeout, both error paths return with the global timeout left at 5. -/
theorem slurp_error_paths_leave_timeout_overridden :
    (SlurpingClassifier.slurp cfg0 { resolves := true, fetch := .httpError "404" } tok0 st0
        "http" "example.com"
      = some (.pyList ["url:http_404"],
              { st0 with
                  timeout := some 5,
                  http_error_urls := [("example.com", "url:http_404")] },
              [.dns, .fetch]))
    ∧ (SlurpingClassifier.slurp cfg0 netA tok0 st0 "http" "example.com"
      = some (.pyList ["url:unknown_error"],
              { st0 with timeout := some 5, unknown_error := ["example.com"] },
              [.dns, .fetch]))
    ∧ st0.timeout = none ∧ (some 5 : Option Nat) ≠ none := by
  exact ⟨by decide, by decide, rfl, by decide⟩

/-- C5: contrary to the claim, a hit in the per-URL HTTP-status map
returns the stored bare string, not a one-element token sequence: for a
state mapping `example.com` to `url:http_404`, `slurp` returns the
Python string itself, whose iteration as a token sequence is the list of
its twelve one-character strings, unlike the one-element list returned
when the status error is first encountered. -/
theorem slurp_status_map_hit_returns_bare_string :
    (SlurpingClassifier.slurp cfg0 netA tok0
        { st0 with http_error_urls := [("example.com", "url:http_404")] } "http" "example.com"
      = some (.pyStr "url:http_404",
              { st0 with http_error_urls := [("example.com", "url:http_404")] }, []))
    ∧ (SlurpingClassifier.slurp cfg0 { resolves := true, fetch := .httpError "404" } tok0 st0
        "http" "example.com"
      = some (.pyList ["url:http_404"],
              { st0 with
                  timeout := some 5,
                  http_error_urls := [("example.com", "url:http_404")] },
              [.dns, .fetch]))
    ∧ (PyTokens.pyStr "url:http_404").asSeq ≠ ["url:http_404"]
    ∧ (PyTokens.pyList ["url:http_404"]).asSeq = ["url:http_404"] := by
  exact ⟨by decide, by decide, by decide, rfl⟩

/-- C7: for every URL recorded in the `non_resolving` bucket (under the
configured canonicalization), `slurp` returns `["url:non_resolving"]`
with the state unchanged and performs no DNS lookup and no fetch: the
negative-cache lookup precedes any network access. -/
theorem slurp_non_resolving_cached_no_network
    (cfg : Config) (net : NetBehavior) (tokFn : String → List Token)
    (st : SlurpState) (proto url : String)
    (hmem : (if cfg.onlyBase then SlurpingClassifier._base_url url else url)
              ∈ st.non_resolving) :
    SlurpingClassifier.slurp cfg net tokFn st proto url
      = some (.pyList ["url:non_resolving"], st, []) := by
  by_cases hurl : url = ""
  · simp [SlurpingClassifier.slurp, hurl]
  · simp only [SlurpingClassifier.slurp]
    rw [if_neg hurl, if_pos hmem]

theorem slurp_non_resolving_cached_no_network_witness :
    ((if cfg0.onlyBase then SlurpingClassifier._base_url "bad.example.com"
      else "bad.example.com")
        ∈ ({ st0 with non_resolving := ["bad.example.com"] } : SlurpState).non_resolving) ∧
    SlurpingClassifier.slurp cfg0 netA tok0
        { st0 with non_resolving := ["bad.example.com"] } "http" "bad.example.com"
      = some (.pyList ["url:non_resolving"],
              { st0 with non_resolving := ["bad.example.com"] }, []) :=
  ⟨by decide,
    slurp_non_resolving_cached_no_network cfg0 netA tok0
      { st0 with non_resolving := ["bad.example.com"] } "http" "bad.example.com" (by decide)⟩

/-- C9: a resolution that returns via a negative-cache hit (membership
in one of the three buckets or in the per-URL HTTP-status map, under the
configured canonicalization) leaves the whole cache state — the three
buckets, the status map, the positive content store, and even the
timeout — exactly as before the call, and performs no network access. -/
theorem slurp_negative_hit_preserves_state
    (cfg : Config) (net : NetBehavior) (tokFn : String → List Token)
    (st : SlurpState) (proto url : String) (eff : String)
    (heff : eff = if cfg.onlyBase then SlurpingClassifier._base_url url else url)
    (hmem : eff ∈ st.non_resolving ∨ eff ∈ st.non_html ∨ eff ∈ st.unknown_error ∨
            (st.http_error_urls.lookup eff).isSome = true) :
    ∃ r, SlurpingClassifier.slurp cfg net tokFn st proto url = some (r, st, []) := by
  by_cases hurl : url = ""
  · exact ⟨.pyList ["url:non_resolving"], by simp [SlurpingClassifier.slurp, hurl]⟩
  · by_cases m1 : eff ∈ st.non_resolving
    · refine ⟨.pyList ["url:non_resolving"], ?_⟩
      simp only [SlurpingClassifier.slurp]
      rw [if_neg hurl, ← heff, if_pos m1]
    · by_cases m2 : eff ∈ st.non_html
      · refine ⟨.pyList ["url:non_html"], ?_⟩
        simp only [SlurpingClassifier.slurp]
        rw [if_neg hurl, ← heff, if_neg m1, if_pos m2]
      · by_cases m3 : eff ∈ st.unknown_error
        · refine ⟨.pyList ["url:unknown_error"], ?_⟩
          simp only [SlurpingClassifier.slurp]
          rw [if_neg hurl, ← heff, if_neg m1, if_neg m2, if_pos m3]
        · rcases hmem with m | m | m | m
          · exact absurd m m1
          · exact absurd m m2
          · exact absurd m m3
          · obtain ⟨tok, htok⟩ := Option.isSome_iff_exists.mp m
            refine ⟨.pyStr tok, ?_⟩
            simp only [SlurpingClassifier.slurp]
            rw [if_neg hurl, ← heff, if_neg m1, if_neg m2, if_neg m3, htok]

theorem slurp_negative_hit_preserves_state_witness :
    (("pic.example.com" : String)
        = if cfg0.onlyBase then SlurpingClassifier._base_url "pic.example.com"
          else "pic.example.com") ∧
    (("pic.example.com" ∈ ({ st0 with non_html := ["pic.example.com"] } : SlurpState).non_resolving ∨
      "pic.example.com" ∈ ({ st0 with non_html := ["pic.example.com"] } : SlurpState).non_html ∨
      "pic.example.com" ∈ ({ st0 with non_html := ["pic.example.com"] } : SlurpState).unknown_error ∨
      (({ st0 with non_html := ["pic.example.com"] } : SlurpState).http_error_urls.lookup
          "pic.example.com").isSome = true)) ∧
    (∃ r, SlurpingClassifier.slurp cfg0 netA tok0
        { st0 with non_html := ["pic.example.com"] } "http" "pic.example.com"
      = some (r, { st0 with non_html := ["pic.example.com"] }, [])) :=
  ⟨by decide, by decide,
    slurp_negative_hit_preserves_state cfg0 netA tok0
      { st0 with non_html := ["pic.example.com"] } "http" "pic.example.com"
      "pic.example.com" (by decide) (by decide)⟩

/-! ## The fetch path of `slurp` (used by C6 and C8) -/

theorem slurp_fetch_path
    (cfg : Config) (net : NetBehavior) (tokFn : String → List Token)
    (st : SlurpState) (proto url : String) (c : Char) (rest : List Char)
    (hb : cfg.onlyBase = false) (hurl : url ≠ "")
    (h1 : url ∉ st.non_resolving) (h2 : url ∉ st.non_html) (h3 : url ∉ st.unknown_error)
    (h4 : st.http_error_urls.lookup url = none)
    (hdata : url.data = c :: rest) (hc : ¬ (c = ':' ∨ c = '/' ∨ c = '\\'))
    (hres : net.resolves = true)
    (h5 : st.corpus.lookup (SlurpingClassifier.url_key url) = none)
    (h6 : (pySplitStr '.' url).getLastD "" ∉ (["jpg", "gif", "png", "css", "js"] : List String)) :
    SlurpingClassifier.slurp cfg net tokFn st proto url =
      (match net.fetch with
       | .httpError code =>
         some (.pyList ["url:http_" ++ code],
               { st with
                   timeout := some 5,
                   http_error_urls := st.http_error_urls ++ [(url, "url:http_" ++ code)] },
               [.dns, .fetch])
       | .otherError =>
         some (.pyList ["url:unknown_error"],
               { st with timeout := some 5, unknown_error := st.unknown_error ++ [url] },
               [.dns, .fetch])
       | .success contentType readResult =>
         match contentType with
         | none =>
           some (.pyList ["url:non_html"],
                 { st with non_html := st.non_html ++ [url] }, [.dns, .fetch])
         | some ct =>
           if pyStartswith ct "text/html" then
             match readResult with
             | none => some (.pyList [], st, [.dns, .fetch])
             | some _pr => none
           else
             some (.pyList ["url:non_html"],
                   { st with non_html := st.non_html ++ [url] }, [.dns, .fetch])) := by
  simp at h6
  simp [SlurpingClassifier.slurp, hurl, hb, h1, h2, h3, h4, hdata, hc, hres, h5, h6]

theorem pyStartswith_lower {s p : String} (h : pyStartswith s p = true) :
    pyStartswith (pyLowerStr s) (pyLowerStr p) = true := by
  unfold pyStartswith at h ⊢
  rw [List.isPrefixOf_iff_prefix] at h ⊢
  show (p.data.map Char.toLower) <+: (s.data.map Char.toLower)
  exact h.map _

theorem ciHtml_of_startswith {ct : String} (h : pyStartswith ct "text/html" = true) :
    ciHtml (some ct) = true := by
  have h2 := pyStartswith_lower h
  have h3 : pyLowerStr "text/html" = "text/html" := by decide
  rw [h3] at h2
  simpa [ciHtml] using h2

/-- C6: on a successful connection reached through the fetch path,
content is accepted for tokenization and positive caching only if the
declared content type matches `text/html` case-insensitively, and every
response whose declared type does not so match (including a missing
type) produces the `url:non_html` token and records the URL in the
`non_html` bucket (first conjunct; its state equation also shows the
corpus is not written and no tokenization happens there).  Acceptance —
the content passing the gate at lines 348-349, after which it is stored
in the corpus and fed to the tokenizer, where the call then dies of the
`UnboundLocalError` at line 376, modelled as `none` — happens only when
the declared type passes the case-sensitive `startswith` check, which
entails the case-insensitive match (second conjunct). -/
theorem slurp_content_type_gate
    (cfg : Config) (net : NetBehavior) (tokFn : String → List Token)
    (st : SlurpState) (proto url : String) (c : Char) (rest : List Char)
    (cto : Option String) (rr : Option (String × String))
    (hb : cfg.onlyBase = false) (hurl : url ≠ "")
    (h1 : url ∉ st.non_resolving) (h2 : url ∉ st.non_html) (h3 : url ∉ st.unknown_error)
    (h4 : st.http_error_urls.lookup url = none)
    (hdata : url.data = c :: rest) (hc : ¬ (c = ':' ∨ c = '/' ∨ c = '\\'))
    (hres : net.resolves = true)
    (h5 : st.corpus.lookup (SlurpingClassifier.url_key url) = none)
    (h6 : (pySplitStr '.' url).getLastD "" ∉ (["jpg", "gif", "png", "css", "js"] : List String))
    (hfetch : net.fetch = .success cto rr) :
    (ciHtml cto = false →
       SlurpingClassifier.slurp cfg net tokFn st proto url
         = some (.pyList ["url:non_html"],
                 { st with non_html := st.non_html ++ [url] }, [.dns, .fetch]))
    ∧ (SlurpingClassifier.slurp cfg net tokFn st proto url = none →
         ciHtml cto = true) := by
  have hpath := slurp_fetch_path cfg net tokFn st proto url c rest hb hurl h1 h2 h3 h4
    hdata hc hres h5 h6
  rw [hfetch] at hpath
  constructor
  · intro hci
    cases cto with
    | none => simpa using hpath
    | some ct =>
      have hcs : pyStartswith ct "text/html" = false := by
        cases hx : pyStartswith ct "text/html" with
        | false => rfl
        | true => rw [ciHtml_of_startswith hx] at hci; exact absurd hci (by simp)
      rw [hpath]
      simp [hcs]
  · intro hnone
    rw [hpath] at hnone
    cases cto with
    | none => simp at hnone
    | some ct =>
      by_cases hcs : pyStartswith ct "text/html" = true
      · exact ciHtml_of_startswith hcs
      · simp only [Bool.not_eq_true] at hcs
        simp [hcs] at hnone

theorem slurp_content_type_gate_witness :
    (cfg0.onlyBase = false ∧ ("example.com" : String) ≠ "" ∧
     "example.com" ∉ st0.non_resolving ∧ "example.com" ∉ st0.non_html ∧
     "example.com" ∉ st0.unknown_error ∧
     st0.http_error_urls.lookup "example.com" = none ∧
     ("example.com" : String).data = 'e' :: ("xample.com" : String).data ∧
     ¬ ('e' = ':' ∨ 'e' = '/' ∨ 'e' = '\\') ∧
     ({ resolves := true, fetch := .success (some "text/plain") none } : NetBehavior).resolves
       = true ∧
     st0.corpus.lookup (SlurpingClassifier.url_key "example.com") = none ∧
     (pySplitStr '.' "example.com").getLastD ""
       ∉ (["jpg", "gif", "png", "css", "js"] : List String) ∧
     ({ resolves := true, fetch := .success (some "text/plain") none } : NetBehavior).fetch
       = .success (some "text/plain") none) ∧
    ((ciHtml (some "text/plain") = false →
       SlurpingClassifier.slurp cfg0
           { resolves := true, fetch := .success (some "text/plain") none } tok0 st0
           "http" "example.com"
         = some (.pyList ["url:non_html"],
                 { st0 with non_html := st0.non_html ++ ["example.com"] }, [.dns, .fetch]))
     ∧ (SlurpingClassifier.slurp cfg0
            { resolves := true, fetch := .success (some "text/plain") none } tok0 st0
            "http" "example.com"
          = none →
        ciHtml (some "text/plain") = true)) :=
  ⟨by decide,
    slurp_content_type_gate cfg0
      { resolves := true, fetch := .success (some "text/plain") none } tok0 st0
      "http" "example.com" 'e' ("xample.com" : String).data (some "text/plain") none
      (by decide) (by decide) (by decide) (by decide) (by decide) (by decide) (by decide)
      (by decide) (by decide) (by decide) (by decide) (by decide)⟩

/-- C8: when the connection succeeds with an accepted `text/html`
content type but reading the body fails, `slurp` returns the empty token
sequence with the entire state unchanged (no negative-cache bucket, no
HTTP-status entry, no positive cache entry, timeout restored), so an
identical later call takes the fetch path again (the event trace
contains the fetch). -/
theorem slurp_transient_read_failure_no_caching
    (cfg : Config) (net : NetBehavior) (tokFn : String → List Token)
    (st : SlurpState) (proto url : String) (c : Char) (rest : List Char) (ct : String)
    (hb : cfg.onlyBase = false) (hurl : url ≠ "")
    (h1 : url ∉ st.non_resolving) (h2 : url ∉ st.non_html) (h3 : url ∉ st.unknown_error)
    (h4 : st.http_error_urls.lookup url = none)
    (hdata : url.data = c :: rest) (hc : ¬ (c = ':' ∨ c = '/' ∨ c = '\\'))
    (hres : net.resolves = true)
    (h5 : st.corpus.lookup (SlurpingClassifier.url_key url) = none)
    (h6 : (pySplitStr '.' url).getLastD "" ∉ (["jpg", "gif", "png", "css", "js"] : List String))
    (hfetch : net.fetch = .success (some ct) none)
    (hcs : pyStartswith ct "text/html" = true) :
    SlurpingClassifier.slurp cfg net tokFn st proto url
      = some (.pyList [], st, [.dns, .fetch]) := by
  have hpath := slurp_fetch_path cfg net tokFn st proto url c rest hb hurl h1 h2 h3 h4
    hdata hc hres h5 h6
  rw [hfetch] at hpath
  rw [hpath]
  simp [hcs]

theorem slurp_transient_read_failure_no_caching_witness :
    (cfg0.onlyBase = false ∧ ("example.com" : String) ≠ "" ∧
     "example.com" ∉ st0.non_resolving ∧ "example.com" ∉ st0.non_html ∧
     "example.com" ∉ st0.unknown_error ∧
     st0.http_error_urls.lookup "example.com" = none ∧
     ("example.com" : String).data = 'e' :: ("xample.com" : String).data ∧
     ¬ ('e' = ':' ∨ 'e' = '/' ∨ 'e' = '\\') ∧
     ({ resolves := true, fetch := .success (some "text/html") none } : NetBehavior).resolves
       = true ∧
     st0.corpus.lookup (SlurpingClassifier.url_key "example.com") = none ∧
     (pySplitStr '.' "example.com").getLastD ""
       ∉ (["jpg", "gif", "png", "css", "js"] : List String) ∧
     ({ resolves := true, fetch := .success (some "text/html") none } : NetBehavior).fetch
       = .success (some "text/html") none ∧
     pyStartswith "text/html" "text/html" = true) ∧
    SlurpingClassifier.slurp cfg0
        { resolves := true, fetch := .success (some "text/html") none } tok0 st0
        "http" "example.com"
      = some (.pyList [], st0, [.dns, .fetch]) :=
  ⟨by decide,
    slurp_transient_read_failure_no_caching cfg0
      { resolves := true, fetch := .success (some "text/html") none } tok0 st0
      "http" "example.com" 'e' ("xample.com" : String).data "text/html"
      (by decide) (by decide) (by decide) (by decide) (by decide) (by decide) (by decide)
      (by decide) (by decide) (by decide) (by decide) (by decide) (by decide)⟩
